import Mathlib

set_option autoImplicit false

/-!
# Verification of the mister-skinnylegs artifact-extraction core

Shallow embedding of the repository's code:

* `mister-skinnylegs.py` — the orchestrator (`MisterSkinnylegs`), the
  `SimpleLog` log file, and the `main` driver;
* `plugins/google_drive_plugin.py` — the three Google Drive extraction
  functions;
* `plugins/chatgpt_plugin.py` — the two ChatGPT extraction functions.

Python dictionaries appearing in plugin results are embedded as
association lists (`PyDict`), Python `datetime` values as integer
millisecond offsets from the Unix epoch, and exceptions as an explicit
`Except PyError` result.  Python function-call semantics matter here:
the orchestrator calls each plugin function with **two** positional
arguments while every plugin function declares **three** positional
parameters, which in Python raises `TypeError` before the body runs.
Callables are therefore embedded as functions on an explicit argument
list (`PyCallable`), with an arity guard exactly mirroring CPython's
behaviour.

External collaborators (the `ccl_chromium_reader` profile reader, the
`json` standard library) are modelled at their interface boundary as
the spec directs; repository support modules that are not part of the
provided sources (`util/plugin_loader.py`, `util/artifact_utils.py`,
`util/fs_utils.py`) are modelled from the spec and marked as such.
-/

/-- A parsed JSON value, as produced by Python's `json.loads`
(numbers restricted to integers, which is all the claims touch). -/
inductive PyJson where
  | null : PyJson
  | bool (b : Bool) : PyJson
  | int (z : Int) : PyJson
  | str (s : String) : PyJson
  | arr (xs : List PyJson) : PyJson
  | obj (kvs : List (String × PyJson)) : PyJson
deriving Repr

/-- A value stored in a plugin result dictionary: a string, an integer,
a `datetime` (embedded as milliseconds since the Unix epoch), Python's
`None`, or a raw JSON value copied verbatim from parsed cache data. -/
inductive PyVal where
  | str (s : String) : PyVal
  | int (z : Int) : PyVal
  | time (t : Int) : PyVal
  | none : PyVal
  | jsonv (j : PyJson) : PyVal
deriving Repr

/-- A Python dictionary with string keys, embedded as an association list
in insertion order. -/
abbrev PyDict := List (String × PyVal)

/-- `util.artifact_utils.ArtifactResult` — a wrapper holding the ordered
sequence of result records produced by one extraction function
(`ArtifactResult(results)` in the plugins; the orchestrator reads its
`.result` attribute). -/
structure ArtifactResult where
  result : List PyDict
deriving Repr

/-- The Python exceptions this program can raise, by kind. -/
inductive PyError where
  | typeError : PyError
  | attributeError : PyError
  | valueError : PyError
  | indexError : PyError
  | unknownArtifact : PyError
  | notADirectoryError : PyError
  | fileExistsError : PyError
  | duplicateArtifactName : PyError
  | exception (msg : String) : PyError
deriving Repr, DecidableEq

/-! ## The profile reader, modelled at its interface boundary

`ccl_chromium_reader.ChromiumProfileFolder` is an external collaborator
(spec §1, §6): it is embedded as the data it would yield — lists of
history records, cache records, and session-storage records — together
with filtering iteration, exactly the read-only interface the plugins
consume. -/

/-- One history record as yielded by `profile.iterate_history_records`. -/
structure HistoryRecord where
  rec_id : Int
  url : String
  title : String
  /-- `visit_time`, a `datetime`, embedded as milliseconds since epoch. -/
  visit_time : Int
  record_location : String
deriving Repr, DecidableEq

/-- One cache record as yielded by `profile.iterate_cache`.  The bytes of
`rec.data` are kept abstract as a list of byte values; `dataJson` is the
result of `json.loads(rec.data.decode("utf-8"))` modelled at the
standard-library boundary (`Option.none` when decoding/parsing would
raise). -/
structure CacheRecord where
  keyUrl : String
  data : List Nat
  dataJson : Option PyJson
  /-- the list returned by `rec.metadata.get_attribute("content-disposition")`. -/
  contentDisposition : List String
  /-- `rec.metadata.request_time`, a `datetime`, as milliseconds since epoch. -/
  requestTime : Int
  /-- `rec.metadata.response_time`, a `datetime`, as milliseconds since epoch. -/
  responseTime : Int
  dataLocation : String
deriving Repr

/-- One session-storage record as yielded by
`profile.iter_session_storage(host, key=...)`, carrying the host and key
it is filed under. -/
structure SessionStorageRecord where
  origin : String
  key : String
  value : String
  leveldb_sequence_number : Int
deriving Repr, DecidableEq

/-- The data reachable through one `ChromiumProfileFolder`. -/
structure Profile where
  historyRecords : List HistoryRecord
  cacheRecords : List CacheRecord
  sessionRecords : List SessionStorageRecord
deriving Repr

/-- `profile.iterate_history_records(url=pred)` — history records whose
URL satisfies the predicate, in store order. -/
def iterate_history_records (p : Profile) (pred : String → Bool) : List HistoryRecord :=
  p.historyRecords.filter (fun r => pred r.url)

/-- `profile.iterate_cache(url=pred)` — cache records whose key URL
satisfies the predicate, in store order. -/
def iterate_cache (p : Profile) (pred : String → Bool) : List CacheRecord :=
  p.cacheRecords.filter (fun r => pred r.keyUrl)

/-- `profile.iter_session_storage(host, key=k)` — session-storage records
for the given host and key, in store order. -/
def iter_session_storage (p : Profile) (host key : String) : List SessionStorageRecord :=
  p.sessionRecords.filter (fun r => r.origin = host ∧ r.key = key)

/-! ## Support modules modelled from the spec -/

/-- Modelled from the spec: `util.fs_utils.sanitize_filename` is not in
the provided sources; spec §4.2/§6 says suggested names are sanitized by
stripping/replacing filesystem-unsafe characters so that the result
never contains a path separator.  Unsafe characters are replaced by an
underscore. -/
def sanitize_filename (s : String) : String :=
  String.mk (s.toList.map (fun c =>
    if c.isAlphanum || c = ' ' || c = '.' || c = '-' || c = '_' then c else '_'))

/-- Modelled from the spec: `util.artifact_utils.ArtifactStorage` is not
in the provided sources; spec §3/§4.2 describes a per-invocation storage
handle scoped to the unit's `service/name` namespace which hands out a
stable, serializable location-reference string for each written file. -/
structure ArtifactStorage where
  service : String
  name : String
deriving Repr, DecidableEq

/-- Modelled from the spec: the stable location reference
(`get_file_location_reference()`) for a file written through a storage
handle — the sanitized per-unit namespace followed by the file name. -/
def storageRef (st : ArtifactStorage) (filename : String) : String :=
  sanitize_filename st.service ++ "/" ++ sanitize_filename st.name ++ "/" ++ filename

/-! ## String helpers shared by the plugin embeddings -/

/-- Index of the first occurrence of `pat` in `cs` (as character lists),
or `none`.  Used to embed `re.search` of the literal parts of the
plugins' patterns. -/
def findSub (cs pat : List Char) : Option Nat :=
  match cs with
  | [] => if pat = [] then some 0 else Option.none
  | _ :: rest =>
    if pat.isPrefixOf cs then some 0
    else (findSub rest pat).map (· + 1)

/-- Whether `pat` occurs anywhere in `s` (Python `in` / `re.search` of a
literal). -/
def containsSub (s pat : String) : Bool :=
  (findSub s.toList pat.toList).isSome

/-- A regex word character (`\w`): letter, digit or underscore. -/
def isWordChar (c : Char) : Bool :=
  c.isAlphanum || c = '_'

/-- A character of the regex class `[A-z]` (letters; the class also
covers the few ASCII punctuation characters between `Z` and `a`). -/
def isAzClass (c : Char) : Bool :=
  'A' ≤ c && c ≤ 'z'

/-- `s.rsplit(" - ", 1)[0]` — everything before the last occurrence of
`" - "`, or the whole string when the separator is absent. -/
def rsplitHead (s : String) : String :=
  let parts := s.splitOn " - "
  if parts.length ≤ 1 then s else String.intercalate " - " parts.dropLast

/-- `str.title()` restricted to the single `\w+` word the plugin applies
it to: first character upper-cased, the rest lower-cased. -/
def pyTitleWord (s : String) : String :=
  (s.take 1).toUpper ++ (s.drop 1).toLower

/-- `s.rstrip("\0")` — drop trailing NUL characters. -/
def rstripNull (s : String) : String :=
  String.mk (s.toList.reverse.dropWhile (· = '\x00')).reverse

/-- `s[-36:]` — the last 36 characters (the whole string when shorter). -/
def takeRight36 (s : String) : String :=
  String.mk (s.toList.drop (s.toList.length - 36))

/-- `int(s)` for the strings stored in session storage: an optional
sign followed by at least one decimal digit (anything else raises
`ValueError`). -/
def pyIntOfString (s : String) : Option Int :=
  let signDigits : Int × List Char :=
    match s.toList with
    | '-' :: rest => (-1, rest)
    | '+' :: rest => (1, rest)
    | cs => (1, cs)
  if signDigits.2 ≠ [] && signDigits.2.all Char.isDigit then
    some (signDigits.1 *
      signDigits.2.foldl (fun acc c => acc * 10 + ((c.toNat - '0'.toNat : Nat) : Int)) 0)
  else Option.none

/-! ## `plugins/google_drive_plugin.py` -/

/-- `FOLDERS_URL_PATTERN.match(s)` for
`^https://drive.google.com/drive/folders/` — an anchored literal-prefix
match (the unescaped regex dots are embedded as the literal characters
the plugin intends). -/
def foldersUrlMatch (s : String) : Bool :=
  s.startsWith "https://drive.google.com/drive/folders/"

/-- `FILES_URL_PATTERN.match(s)` for `^https://drive.google.com/file/d/`. -/
def filesUrlMatch (s : String) : Bool :=
  s.startsWith "https://drive.google.com/file/d/"

/-- `DOCS_URL_PATTERN.match(s)` for
`^https://docs.google.com/(?P<service>\w+?)/d/`, returning the captured
`service` group.  The lazy `\w+?` run is necessarily the maximal word-
character run after the domain, because a word character can never be
the `/` that must follow. -/
def docsUrlMatch (s : String) : Option String :=
  let pre := "https://docs.google.com/"
  if s.startsWith pre then
    let rest := s.drop pre.length
    let seg := rest.takeWhile isWordChar
    if seg ≠ "" && (rest.drop seg.length).startsWith "/d/" then some seg
    else Option.none
  else Option.none

/-- `_matches_file_listing_pattern` — the URL predicate handed to
`iterate_history_records` by `folders_and_files`. -/
def matches_file_listing_pattern (s : String) : Bool :=
  foldersUrlMatch s || filesUrlMatch s || (docsUrlMatch s).isSome

/-- The regex fragment `w\d{2,4}-h\d{2,4}` tested at the head of a
character list (with the backtracking of the bounded repetition made
explicit: the digit run after `w` must have length 2 to 4 and be
followed directly by `-h` and at least two digits). -/
def thumbDimsAt (cs : List Char) : Bool :=
  match cs with
  | 'w' :: rest =>
    let n := (rest.takeWhile Char.isDigit).length
    (2 ≤ n && n ≤ 4) &&
      (match rest.drop n with
       | '-' :: 'h' :: rest2 => 2 ≤ (rest2.takeWhile Char.isDigit).length
       | _ => false)
  | _ => false

/-- `re.search` of `<lit>.+w\d{2,4}-h\d{2,4}` in `s`: the literal
occurs, and after it (with at least one `.+` character in between) the
dimension fragment occurs.  Searching from the first literal occurrence
is equivalent to searching from any occurrence. -/
def thumbnailSearch (lit : String) (s : String) : Bool :=
  match findSub s.toList lit.toList with
  | some i => ((s.toList.drop (i + lit.length + 1)).tails.any thumbDimsAt)
  | Option.none => false

/-- `_matches_thumbnail_pattern` — `THUMBNAIL_URL_PATTERN_1.search(s) or
THUMBNAIL_URL_PATTERN_2.search(s)` (unescaped regex dots embedded as the
literal characters the plugin intends). -/
def matches_thumbnail_pattern (s : String) : Bool :=
  thumbnailSearch "googleusercontent.com/fife" s ||
    thumbnailSearch "drive.fife.usercontent.google.com/u" s

/-- `parse_unix_ms(ms)` — `EPOCH + datetime.timedelta(milliseconds=ms)`;
with datetimes embedded as millisecond offsets from the epoch this is
the offset itself. -/
def parse_unix_ms (ms : Int) : Int :=
  0 + ms

/-- The `datetime` sort key the Google Drive plugin sorts by:
`x[key]` where the stored value is a datetime (embedded `.time`). -/
def timeKey (key : String) (d : PyDict) : Int :=
  match d.lookup key with
  | some (PyVal.time t) => t
  | _ => 0

/-- `results.sort(key=lambda x: x[key])` — Python's stable ascending
sort by the datetime stored under `key`. -/
def sortByTimeKey (key : String) (l : List PyDict) : List PyDict :=
  l.mergeSort (fun a b => timeKey key a ≤ timeKey key b)

/-- The record appended by one iteration of the `folders_and_files`
loop, when the history record matches one of the three URL patterns. -/
def driveListingEntry (r : HistoryRecord) : Option PyDict :=
  if foldersUrlMatch r.url then
    some [("id", PyVal.int r.rec_id), ("type", PyVal.str "Folder"),
          ("name", PyVal.str (rsplitHead r.title)), ("url", PyVal.str r.url),
          ("timestamp", PyVal.time r.visit_time)]
  else if filesUrlMatch r.url then
    some [("id", PyVal.int r.rec_id), ("type", PyVal.str "File"),
          ("name", PyVal.str (rsplitHead r.title)), ("url", PyVal.str r.url),
          ("timestamp", PyVal.time r.visit_time)]
  else
    match docsUrlMatch r.url with
    | some svc =>
      some [("id", PyVal.int r.rec_id), ("type", PyVal.str (pyTitleWord svc)),
            ("name", PyVal.str (rsplitHead r.title)), ("url", PyVal.str r.url),
            ("timestamp", PyVal.time r.visit_time)]
    | Option.none => Option.none

/-- `folders_and_files(profile, log_func, storage)` — collects a record
per matching history record, then sorts by `x["timestamp"]`.  The log
and storage parameters are unused by the body. -/
def folders_and_files (profile : Profile) : ArtifactResult :=
  let results :=
    (iterate_history_records profile matches_file_listing_pattern).filterMap driveListingEntry
  { result := sortByTimeKey "timestamp" results }

/-- `re.search(r"filename=\x22(.+?)\x22", cd).group(1)` — the shortest
non-empty capture between `filename="` and the following quote
(`Option.none` when `re.search` returns `None`, whereupon the plugin's
`.group(1)` raises `AttributeError`). -/
def extractCacheFilename (cd : String) : Option String :=
  match findSub cd.toList "filename=\"".toList with
  | some i =>
    let after := cd.toList.drop (i + 10)
    let cap := after.takeWhile (· ≠ '"')
    if cap ≠ [] && (after.drop cap.length) ≠ [] then some (String.mk cap)
    else Option.none
  | Option.none => Option.none

/-- One iteration of the `thumbnails` loop at enumeration index `idx`:
reads the first `content-disposition` attribute (`[0]` raises
`IndexError` when absent), extracts the cached filename, writes the
cache body through the storage handle, and builds the result record. -/
def thumbRecord (storage : ArtifactStorage) (idx : Nat) (rec : CacheRecord) :
    Except PyError PyDict :=
  match rec.contentDisposition.head? with
  | Option.none => Except.error PyError.indexError
  | some cd =>
    match extractCacheFilename cd with
    | Option.none => Except.error PyError.attributeError
    | some fname =>
      let out_filename := toString idx ++ "_" ++ fname
      Except.ok
        [("url", PyVal.str (rstripNull rec.keyUrl)),
         ("cache request time", PyVal.time rec.requestTime),
         ("cache response time", PyVal.time rec.responseTime),
         ("extracted file reference", PyVal.str (storageRef storage out_filename))]

/-- `thumbnails(profile, log_func, storage)` — one record per matching
cache record (in enumeration order), then sorted by
`x["cache request time"]`. -/
def thumbnails (profile : Profile) (storage : ArtifactStorage) :
    Except PyError ArtifactResult :=
  ((iterate_cache profile matches_thumbnail_pattern).enum.mapM
      (fun p => thumbRecord storage p.1 p.2)).map
    (fun results => { result := sortByTimeKey "cache request time" results })

/-- One iteration of the `timeline_usage` loop: `int(rec.value)` (a
non-numeric value raises `ValueError`) fed through `parse_unix_ms`. -/
def timelineRecord (rec : SessionStorageRecord) : Except PyError PyDict :=
  match pyIntOfString rec.value with
  | Option.none => Except.error PyError.valueError
  | some v =>
    Except.ok
      [("source", PyVal.str "Session Storage"),
       ("id", PyVal.int rec.leveldb_sequence_number),
       ("type", PyVal.str "Tab first start"),
       ("timestamp", PyVal.time (parse_unix_ms v))]

/-- `timeline_usage(profile, log_func, storage)` — one record per
session-storage record under `https://drive.google.com/` with key
`ui:tabFirstStartTimeMsec`, sorted by `x["timestamp"]`. -/
def timeline_usage (profile : Profile) : Except PyError ArtifactResult :=
  ((iter_session_storage profile "https://drive.google.com/"
        "ui:tabFirstStartTimeMsec").mapM timelineRecord).map
    (fun results => { result := sortByTimeKey "timestamp" results })

/-! ## `plugins/chatgpt_plugin.py` -/

/-- Python `str(v)` for the JSON values the ChatGPT plugin stringifies
(`str(None)` is `"None"`; container reprs are abbreviated, no claim
inspects them). -/
def pyStr (j : PyJson) : String :=
  match j with
  | PyJson.null => "None"
  | PyJson.bool true => "True"
  | PyJson.bool false => "False"
  | PyJson.int z => toString z
  | PyJson.str s => s
  | PyJson.arr _ => "[...]"
  | PyJson.obj _ => "\x7b...\x7d"

/-- Python truthiness of a JSON value. -/
def pyTruthy (j : PyJson) : Bool :=
  match j with
  | PyJson.null => false
  | PyJson.bool b => b
  | PyJson.int z => z ≠ 0
  | PyJson.str s => s ≠ ""
  | PyJson.arr xs => !xs.isEmpty
  | PyJson.obj kvs => !kvs.isEmpty

/-- `v or None` — `v` when truthy, else `None`. -/
def pyOrNone (j : PyJson) : PyJson :=
  if pyTruthy j then j else PyJson.null

/-- `d.get(key)` — `AttributeError` when the receiver is not a dict,
`None` when the key is absent. -/
def pyGet (j : PyJson) (key : String) : Except PyError PyJson :=
  match j with
  | PyJson.obj kvs => Except.ok ((kvs.lookup key).getD PyJson.null)
  | _ => Except.error PyError.attributeError

/-- `d.get(key, default)`. -/
def pyGetD (j : PyJson) (key : String) (dflt : PyJson) : Except PyError PyJson :=
  match j with
  | PyJson.obj kvs => Except.ok ((kvs.lookup key).getD dflt)
  | _ => Except.error PyError.attributeError

/-- `for x in v` — elements of a list, keys of a dict, characters of a
string; anything else raises `TypeError`. -/
def pyIterate (j : PyJson) : Except PyError (List PyJson) :=
  match j with
  | PyJson.arr xs => Except.ok xs
  | PyJson.obj kvs => Except.ok (kvs.map (fun kv => PyJson.str kv.1))
  | PyJson.str s => Except.ok (s.toList.map (fun c => PyJson.str (String.mk [c])))
  | _ => Except.error PyError.typeError

/-- A JSON value stored verbatim into a result dictionary. -/
def pyValOfJson (j : PyJson) : PyVal :=
  match j with
  | PyJson.null => PyVal.none
  | PyJson.int z => PyVal.int z
  | PyJson.str s => PyVal.str s
  | other => PyVal.jsonv other

/-- `datetime.fromtimestamp(created)` — seconds since epoch to a
datetime (embedded as milliseconds); a non-numeric argument (including
`None` from a missing key) raises `TypeError`. -/
def pyFromtimestamp (j : PyJson) : Except PyError Int :=
  match j with
  | PyJson.int z => Except.ok (z * 1000)
  | _ => Except.error PyError.typeError

/-- The regex fragment `\.[A-z]{2,3}<lit>` tested at the head of a
character list: a dot, a 2- or 3-character `[A-z]` run (with the
bounded repetition's backtracking made explicit), then the literal. -/
def tldThenLit (lit : List Char) (cs : List Char) : Bool :=
  match cs with
  | '.' :: a :: b :: rest =>
    (isAzClass a && isAzClass b &&
      (match rest with
       | c :: rest3 => (isAzClass c && lit.isPrefixOf rest3) || lit.isPrefixOf (c :: rest3)
       | [] => lit.isPrefixOf rest))
  | _ => false

/-- `re.search` of `chatgpt.*?\.[A-z]{2,3}<lit>` in `s` — the pattern
used (with `lit = "/backend-api/conversations?offset"` and
`lit = "/backend-api/me"`) to select ChatGPT cache records.  Searching
from the first `chatgpt` occurrence is equivalent to searching from any
occurrence, since the lazy gap extends freely. -/
def chatgptUrlSearch (lit : String) (s : String) : Bool :=
  match findSub s.toList "chatgpt".toList with
  | some i => ((s.toList.drop (i + 7)).tails.any (tldThenLit lit.toList))
  | Option.none => false

/-- A character of the class `[0-9a-fA-F\-]` (conversation-id
characters). -/
def isHexDash (c : Char) : Bool :=
  c.isDigit || ('a' ≤ c && c ≤ 'f') || ('A' ≤ c && c ≤ 'F') || c = '-'

/-- The regex fragment `/c/[0-9a-fA-F\-]{36}$` tested at the head of a
character list: `/c/`, then exactly 36 id characters, then end of
string (the bounded repetition cannot extend past 36 because `$` must
follow). -/
def convIdTailAt (cs : List Char) : Bool :=
  match cs with
  | '/' :: 'c' :: '/' :: rest => rest.length = 36 && rest.all isHexDash
  | _ => false

/-- `SEARCH_URL_PATTERN` applied to a history URL:
`https?://.*chatgpt.*?\.[A-z]{2,3}/c/[0-9a-fA-F\-]{36}$` under
`re.search` semantics — some `http://` or `https://` occurrence is
followed (at any distance) by `chatgpt`, then a dot, a 2-3 character
`[A-z]` run, and the anchored `/c/<36 id chars>` tail. -/
def searchUrlMatch (s : String) : Bool :=
  match findSub s.toList "chatgpt".toList with
  | some i =>
    (containsSub (s.take i ++ "chatgpt") "http://" ||
       containsSub (s.take i ++ "chatgpt") "https://") &&
      ((s.toList.drop (i + 7)).tails.any (tldThenLit ['/', 'c', '/']) &&
        (s.toList.tails.any convIdTailAt))
  | Option.none => false

/-- The records contributed by one ChatGPT conversations cache record:
`json.loads` of its body (failure raises), `cache_data.get("items", {})`
iterated, one result dictionary per item. -/
def chatgptCacheItems (rec : CacheRecord) : Except PyError (List PyDict) :=
  match rec.dataJson with
  | Option.none => Except.error PyError.valueError
  | some cache_data => do
    let items ← pyGetD cache_data "items" (PyJson.obj [])
    let xs ← pyIterate items
    xs.mapM (fun chat_item => do
      let id ← pyGet chat_item "id"
      let title0 ← pyGet chat_item "title"
      let create_time ← pyGet chat_item "create_time"
      let update_time ← pyGet chat_item "update_time"
      Except.ok
        [("ID", PyVal.str (pyStr id)),
         ("Title", PyVal.str (pyStr (pyOrNone title0))),
         ("History Timestamp", PyVal.str "N/A"),
         ("Chat Created Time", pyValOfJson create_time),
         ("Chat Updated Time", pyValOfJson update_time),
         ("Original URL", PyVal.str "N/A"),
         ("Source", PyVal.str "Cache"),
         ("Data Location", PyVal.str rec.dataLocation)])

/-- The record contributed by one matching history record in
`get_chatgpt_chatinfo`. -/
def chatgptHistoryItem (h : HistoryRecord) : PyDict :=
  [("ID", PyVal.str (takeRight36 h.url)),
   ("Title", PyVal.str h.title),
   ("History Timestamp", PyVal.time h.visit_time),
   ("Chat Created Time", PyVal.str "Unknown"),
   ("Chat Updated Time", PyVal.str "Unknown"),
   ("Original URL", PyVal.str h.url),
   ("Source", PyVal.str "History"),
   ("Data Location", PyVal.str h.record_location)]

/-- `get_chatgpt_chatinfo(profile, log_func, storage)` — cache-derived
records (conversations endpoints) followed by history-derived records. -/
def get_chatgpt_chatinfo (profile : Profile) : Except PyError ArtifactResult := do
  let cacheParts ←
    (iterate_cache profile
        (chatgptUrlSearch "/backend-api/conversations?offset")).mapM chatgptCacheItems
  let historyParts :=
    (iterate_history_records profile searchUrlMatch).map chatgptHistoryItem
  Except.ok { result := cacheParts.flatten ++ historyParts }

/-- The record contributed by one matching cache record in
`get_chatgpt_userinfo`: `json.loads` of the body, field lookups, and
`datetime.fromtimestamp(created)` (which raises on a missing
`created`). -/
def chatgptUserRecord (rec : CacheRecord) : Except PyError PyDict :=
  match rec.dataJson with
  | Option.none => Except.error PyError.valueError
  | some cache_data => do
    let name ← pyGet cache_data "name"
    let email ← pyGet cache_data "email"
    let phone ← pyGet cache_data "phone_number"
    let created ← pyGet cache_data "created"
    let ts ← pyFromtimestamp created
    Except.ok
      [("Created", PyVal.str (toString ts)),
       ("Name", pyValOfJson name),
       ("Email", pyValOfJson email),
       ("Phone Number", PyVal.str (pyStr phone)),
       ("Source", PyVal.str "Cache"),
       ("Data Location", PyVal.str rec.dataLocation)]

/-- `get_chatgpt_userinfo(profile, log_func, storage)` — one record per
matching `/backend-api/me` cache record. -/
def get_chatgpt_userinfo (profile : Profile) : Except PyError ArtifactResult :=
  ((iterate_cache profile (chatgptUrlSearch "/backend-api/me")).mapM
      chatgptUserRecord).map (fun rs => { result := rs })

/-! ## The plugin contract: descriptors and Python call semantics -/

/-- A positional argument in a Python call to an extraction function. -/
inductive PyArg where
  | profileArg (p : Profile) : PyArg
  | logArg : PyArg
  | storageArg (st : ArtifactStorage) : PyArg

/-- A Python callable as the orchestrator sees it: a function of the
positional-argument list.  CPython raises `TypeError` when the argument
list does not fit the function's parameter list; each concrete plugin
callable below guards accordingly before running its body. -/
structure PyCallable where
  call : List PyArg → Except PyError ArtifactResult

/-- `ReportPresentation` (`util.artifact_utils`): the presentation hint
carried by each descriptor (the plugins all use `table`). -/
inductive ReportPresentation where
  | table : ReportPresentation
deriving Repr, DecidableEq

/-- `util.artifact_utils.ArtifactSpec` — one artifact descriptor:
service, name, description, version, the extraction function, and a
presentation hint (spec §3). -/
structure ArtifactSpec where
  service : String
  name : String
  description : String
  version : String
  function : PyCallable
  presentation : ReportPresentation

/-- The callable for a plugin function with the three positional
parameters `(profile, log_func, storage)`: the body runs only when the
call supplies exactly a profile, a log sink, and a storage handle;
any other argument list raises `TypeError` (this is what CPython does
before entering the function body). -/
def threeParamCallable (body : Profile → ArtifactStorage → Except PyError ArtifactResult) :
    PyCallable :=
  { call := fun args =>
      match args with
      | [PyArg.profileArg p, PyArg.logArg, PyArg.storageArg st] => body p st
      | _ => Except.error PyError.typeError }

/-- `ArtifactSpec("ChatGPT", "ChatGPT Chat Information", ...)`. -/
def chatgpt_chatinfo_spec : ArtifactSpec :=
  { service := "ChatGPT"
    name := "ChatGPT Chat Information"
    description := "Recovers ChatGPT chat information from History and Cache"
    version := "0.1"
    function := threeParamCallable (fun p _ => get_chatgpt_chatinfo p)
    presentation := ReportPresentation.table }

/-- `ArtifactSpec("ChatGPT", "ChatGPT User Information", ...)`. -/
def chatgpt_userinfo_spec : ArtifactSpec :=
  { service := "ChatGPT"
    name := "ChatGPT User Information"
    description := "Recovers ChatGPT user information from Cache"
    version := "0.1"
    function := threeParamCallable (fun p _ => get_chatgpt_userinfo p)
    presentation := ReportPresentation.table }

/-- `ArtifactSpec("Google Drive", "Google Drive Files and Folders", ...)`. -/
def folders_and_files_spec : ArtifactSpec :=
  { service := "Google Drive"
    name := "Google Drive Files and Folders"
    description := "Recovers Google Drive and Docs folder and file names (and urls) from history records"
    version := "0.1"
    function := threeParamCallable (fun p _ => Except.ok (folders_and_files p))
    presentation := ReportPresentation.table }

/-- `ArtifactSpec("Google Drive", "Google Drive Thumbnails", ...)`. -/
def thumbnails_spec : ArtifactSpec :=
  { service := "Google Drive"
    name := "Google Drive Thumbnails"
    description := "Recovers Google Drive thumbnails from the cache"
    version := "0.1"
    function := threeParamCallable (fun p st => thumbnails p st)
    presentation := ReportPresentation.table }

/-- `ArtifactSpec("Google Drive", "Google Drive Usage", ...)`. -/
def timeline_usage_spec : ArtifactSpec :=
  { service := "Google Drive"
    name := "Google Drive Usage"
    description := "Recovers indications of Google Drive usage"
    version := "0.1"
    function := threeParamCallable (fun p _ => timeline_usage p)
    presentation := ReportPresentation.table }

/-- The catalog the loader builds from the two plugin files in
`plugins/` (each entry paired with its origin module path, spec §3). -/
def repoCatalog : List (ArtifactSpec × String) :=
  [(chatgpt_chatinfo_spec, "chatgpt_plugin.py"),
   (chatgpt_userinfo_spec, "chatgpt_plugin.py"),
   (folders_and_files_spec, "google_drive_plugin.py"),
   (thumbnails_spec, "google_drive_plugin.py"),
   (timeline_usage_spec, "google_drive_plugin.py")]

/-! ## The orchestrator: `MisterSkinnylegs` -/

/-- One `MisterSkinnylegs` instance after construction: the catalog its
`PluginLoader` holds and the data reachable at its profile-folder path
(each `ChromiumProfileFolder(self._profile_folder_path)` opens a fresh
handle onto this same data). -/
structure MisterSkinnylegs where
  profileData : Profile
  catalog : List (ArtifactSpec × String)

/-- The specs of `self.artifacts` in catalog order. -/
def MisterSkinnylegs.specs (ms : MisterSkinnylegs) : List ArtifactSpec :=
  ms.catalog.map Prod.fst

/-- The result envelope dictionary built at the end of
`MisterSkinnylegs._run_artifact` (source lines 48–53). -/
structure ResultEnvelope where
  artifact_service : String
  artifact_name : String
  artifact_version : String
  artifact_description : String
  result : List PyDict
deriving Repr

/-- The call expression on source line 47:
`spec.function(profile, self._log_callback)` — exactly two positional
arguments, and no storage handle is constructed anywhere in
`_run_artifact`. -/
def runArtifactCall (ms : MisterSkinnylegs) (spec : ArtifactSpec) :
    Except PyError ArtifactResult :=
  spec.function.call [PyArg.profileArg ms.profileData, PyArg.logArg]

/-- The value of `MisterSkinnylegs._run_artifact(spec)` once awaited:
the `(spec, envelope)` pair when the extraction call returns, or the
exception it raised. -/
def runArtifactEnvelope (ms : MisterSkinnylegs) (spec : ArtifactSpec) :
    Except PyError (ArtifactSpec × ResultEnvelope) :=
  match runArtifactCall ms spec with
  | Except.ok r =>
    Except.ok (spec,
      { artifact_service := spec.service
        artifact_name := spec.name
        artifact_version := spec.version
        artifact_description := spec.description
        result := r.result })
  | Except.error e => Except.error e

/-- Acquisition/release events on profile handles, tagged by the handle
identity (one fresh `ChromiumProfileFolder` per invocation). -/
inductive ProfileEvent where
  | opened (hid : Nat) : ProfileEvent
  | closed (hid : Nat) : ProfileEvent
deriving Repr, DecidableEq

/-- The `with` statement wrapping `_run_artifact`'s body: the handle is
opened before the body and closed when the block exits, whether the
body returned a value or raised. -/
def pyWithProfile (hid : Nat) (body : Except PyError (ArtifactSpec × ResultEnvelope)) :
    List ProfileEvent × Except PyError (ArtifactSpec × ResultEnvelope) :=
  ([ProfileEvent.opened hid, ProfileEvent.closed hid], body)

/-- `_run_artifact` with its resource trace: a fresh profile handle
`hid` is opened, the two-argument call is made, and the handle is
closed on both the return and the raise path. -/
def runArtifact (hid : Nat) (ms : MisterSkinnylegs) (spec : ArtifactSpec) :
    List ProfileEvent × Except PyError (ArtifactSpec × ResultEnvelope) :=
  pyWithProfile hid (runArtifactEnvelope ms spec)

/-- The consumer-visible behaviour of `run_all`'s
`for coro in asyncio.as_completed(tasks): yield await coro` loop, with
`order` the completion order of the invocations (indices into the
catalog).  Envelopes are yielded as their invocations complete; when an
awaited invocation raised, the exception propagates out of the
generator and nothing further is yielded. -/
def runAllLoop (ms : MisterSkinnylegs) :
    List Nat → List (ArtifactSpec × ResultEnvelope) × Option PyError
  | [] => ([], Option.none)
  | i :: rest =>
    match ms.specs[i]? with
    | Option.none => ([], some PyError.indexError)
    | some spec =>
      match runArtifactEnvelope ms spec with
      | Except.ok pr =>
        let rec_rest := runAllLoop ms rest
        (pr :: rec_rest.1, rec_rest.2)
      | Except.error e => ([], some e)

/-- The profile-handle events of the invocation scheduled for catalog
index `i` by `run_all` (every scheduled task runs its `with` block;
invocation `i` opens the fresh handle `i`; an out-of-range index
schedules nothing). -/
def invocationEvents (ms : MisterSkinnylegs) (i : Nat) : List ProfileEvent :=
  match ms.specs[i]? with
  | some spec => (runArtifact i ms spec).1
  | Option.none => []

/-- The profile-handle events of all invocations started by `run_all`,
in completion order (see `invocationEvents`). -/
def runAllEvents (ms : MisterSkinnylegs) (order : List Nat) : List ProfileEvent :=
  (order.map (invocationEvents ms)).flatten

/-- Modelled from the spec: `PluginLoader.__getitem__`
(`util/plugin_loader.py` is not in the provided sources); spec §4.1 —
`catalog.get(name)` returns the `(descriptor, originPath)` entry for
`name` and fails with `UnknownArtifact` when `name` is absent. -/
def loaderGetItem (catalog : List (ArtifactSpec × String)) (name : String) :
    Except PyError (ArtifactSpec × String) :=
  match catalog.find? (fun e => e.1.name = name) with
  | some e => Except.ok e
  | Option.none => Except.error PyError.unknownArtifact

/-- A Python value that is either a result envelope or an un-awaited
coroutine object (the suspended computation it would perform when
awaited). -/
inductive PyResult where
  | envelope (e : ArtifactSpec × ResultEnvelope) : PyResult
  | coroutine (resume : Unit → List ProfileEvent × Except PyError (ArtifactSpec × ResultEnvelope)) : PyResult

/-- Whether a `PyResult` is an un-awaited coroutine object. -/
def PyResult.isCoroutine : PyResult → Bool
  | PyResult.coroutine _ => true
  | PyResult.envelope _ => false

/-- `MisterSkinnylegs.run_one(artifact_name)` (source lines 60–63):
looks the name up in the loader, then binds
`result = self._run_artifact(spec)` **without awaiting it** and returns
`spec, result` — so the second component is the coroutine object
itself, not an envelope. -/
def run_one (ms : MisterSkinnylegs) (artifact_name : String) :
    Except PyError (ArtifactSpec × PyResult) :=
  match loaderGetItem ms.catalog artifact_name with
  | Except.error e => Except.error e
  | Except.ok (spec, _path) =>
    Except.ok (spec, PyResult.coroutine (fun _ => runArtifact 0 ms spec))

/-! ## The `main` driver: startup checks, logging, report writing -/

/-- The outcome of a successful Python `open`: a fresh file was created,
or an existing file's contents were truncated (replaced). -/
inductive OpenOutcome where
  | createdNew : OpenOutcome
  | truncatedExisting : OpenOutcome
deriving Repr, DecidableEq

/-- Python `open(path, mode)` restricted to the create-modes this
program could use: exclusive-create (`x`) raises `FileExistsError` on a
pre-existing target; write (`w`) truncates it.  (Every `open` in the
source uses mode `"xt"`.) -/
def pyOpen (mode : String) (fileExists : Bool) : Except PyError OpenOutcome :=
  if mode.toList.contains 'x' then
    if fileExists then Except.error PyError.fileExistsError
    else Except.ok OpenOutcome.createdNew
  else if mode.toList.contains 'w' then
    Except.ok (if fileExists then OpenOutcome.truncatedExisting else OpenOutcome.createdNew)
  else Except.error PyError.valueError

/-- The open mode used by `SimpleLog.__init__` (source line 80:
`out_path.open("xt", encoding="utf-8")`). -/
def simpleLogOpenMode : String := "xt"

/-- The open mode used for each report file (source line 138:
`out_file_path.open("xt", encoding="utf-8")`). -/
def reportOpenMode : String := "xt"

/-- Filesystem and logging side effects performed by `main`, in
program order. -/
inductive Effect where
  /-- `report_out_folder_path.mkdir(parents=True)` (line 108). -/
  | mkdirOutputRoot : Effect
  /-- the log file opened by `SimpleLog` (line 109), with its open mode. -/
  | openLogFile (mode : String) : Effect
  /-- one timestamped log line. -/
  | logLine (s : String) : Effect
  /-- `out_dir_path.mkdir(exist_ok=True)` for a service directory (line 133). -/
  | mkdirServiceDir (dir : String) : Effect
  /-- the per-artifact report file opened inside `dir` (line 138), with its open mode. -/
  | openReportFile (dir file mode : String) : Effect
  /-- `json.dump(result, out)` of the envelope into that file (line 139). -/
  | writeReport (dir file : String) (doc : ResultEnvelope) : Effect

/-- The open mode of an effect that opens a file, if it is one. -/
def Effect.openMode : Effect → Option String
  | Effect.openLogFile m => some m
  | Effect.openReportFile _ _ m => some m
  | _ => Option.none

/-- Whether an effect writes (creates or fills) a report output file. -/
def Effect.isFileOutput : Effect → Bool
  | Effect.openReportFile _ _ _ => true
  | Effect.writeReport _ _ _ => true
  | _ => false

/-- Whether two descriptors somewhere in the list share a `name`. -/
def hasDuplicateNames : List String → Bool
  | [] => false
  | n :: rest => rest.contains n || hasDuplicateNames rest

/-- Modelled from the spec: catalog construction inside `PluginLoader`
(`util/plugin_loader.py` is not in the provided sources); spec §4.1 —
the loader accumulates every plugin's exported descriptors and fails
with a `DuplicateArtifactName` condition when two descriptors share a
name. -/
def loadCatalog (plugins : List (ArtifactSpec × String)) :
    Except PyError (List (ArtifactSpec × String)) :=
  if hasDuplicateNames (plugins.map (fun e => e.1.name)) then
    Except.error PyError.duplicateArtifactName
  else Except.ok plugins

/-- The body of `main`'s consumption loop (source lines 126–139) for
one yielded `(spec, result)` pair: log the acquisition; when
`result["result"]` is empty, log the skip and write nothing; otherwise
create the sanitized per-service directory and write the single report
file `sanitize_filename(spec.name) + ".json"` there, in
exclusive-create mode. -/
def handleResult (spec : ArtifactSpec) (result : ResultEnvelope) : List Effect :=
  [Effect.logLine ("Results acquired for " ++ spec.name)] ++
    (if result.result.isEmpty then
      [Effect.logLine (spec.name ++ " had not results, skipping")]
    else
      let dir := sanitize_filename spec.service
      let file := sanitize_filename spec.name ++ ".json"
      [Effect.mkdirServiceDir dir,
       Effect.openReportFile dir file reportOpenMode,
       Effect.writeReport dir file result])

/-- The startup inputs `main` runs against: whether the profile path is
a directory, whether the output folder pre-exists, the descriptors the
plugin scan finds, and the profile data. -/
structure StartupEnv where
  profileIsDir : Bool
  outputExists : Bool
  plugins : List (ArtifactSpec × String)
  profileData : Profile

/-- The startup log lines of `main` (lines 114–124). -/
def startupLogs (catalog : List (ArtifactSpec × String)) : List Effect :=
  (["Mister Skinnylegs v0.0.3 is on the go!",
    "Working with profile folder",
    "",
    "Plugins loaded:",
    "==============="] ++
      catalog.map (fun e => e.1.name ++ "  -  " ++ e.2) ++
      ["", "Processing starting..."]).map Effect.logLine

/-- `main(args)` (source lines 96–139) as its effect trace and final
exception: validate the profile path (line 102) and the output folder
(line 105) before any side effect; then create the output root
(line 108) and the log file (line 109); then construct
`MisterSkinnylegs`, whose `PluginLoader` builds — and duplicate-checks —
the catalog (line 112); then log the catalog and consume `run_all()`
with the given completion order, handling each yielded pair. -/
def mainRun (env : StartupEnv) (order : List Nat) : List Effect × Option PyError :=
  if !env.profileIsDir then ([], some PyError.notADirectoryError)
  else if env.outputExists then ([], some PyError.fileExistsError)
  else
    let pre := [Effect.mkdirOutputRoot, Effect.openLogFile simpleLogOpenMode]
    match loadCatalog env.plugins with
    | Except.error e => (pre, some e)
    | Except.ok catalog =>
      let ms : MisterSkinnylegs := { profileData := env.profileData, catalog := catalog }
      let consumed := runAllLoop ms order
      (pre ++ startupLogs catalog ++
        (consumed.1.map (fun pr => handleResult pr.1 pr.2)).flatten,
       consumed.2)

/-! ## Fixtures: concrete instances used by witnesses and counterexamples -/

/-- A profile with no records at all. -/
def emptyProfile : Profile :=
  { historyRecords := [], cacheRecords := [], sessionRecords := [] }

/-- The program as shipped: the real five-entry catalog over any
profile data. -/
def msEmpty : MisterSkinnylegs :=
  { profileData := emptyProfile, catalog := repoCatalog }

/-- The callable for an extraction function with the two positional
parameters the orchestrator actually supplies — an abstract unit, used
to state what the orchestrator does with units whose invocation
completes. -/
def twoParamCallable (body : Profile → Except PyError ArtifactResult) : PyCallable :=
  { call := fun args =>
      match args with
      | [PyArg.profileArg p, PyArg.logArg] => body p
      | _ => Except.error PyError.typeError }

/-- An abstract descriptor whose invocation completes normally with the
given records. -/
def okSpec (svc nm : String) (records : List PyDict) : ArtifactSpec :=
  { service := svc
    name := nm
    description := "test unit"
    version := "1"
    function := twoParamCallable (fun _ => Except.ok { result := records })
    presentation := ReportPresentation.table }

/-- An abstract descriptor whose invocation raises. -/
def raisingSpec (svc nm : String) : ArtifactSpec :=
  { service := svc
    name := nm
    description := "failing unit"
    version := "1"
    function := twoParamCallable (fun _ => Except.error (PyError.exception "boom"))
    presentation := ReportPresentation.table }

/-- A unit that completes normally with one record under service `SvcA`. -/
def unitASpec : ArtifactSpec :=
  okSpec "SvcA" "UnitA" [[("k", PyVal.str "v")]]

/-- A unit that completes normally with an empty result. -/
def unitBSpec : ArtifactSpec :=
  okSpec "SvcB" "UnitB" []

/-- A two-unit catalog whose invocations both complete normally. -/
def msOk : MisterSkinnylegs :=
  { profileData := emptyProfile
    catalog := [(unitASpec, "a.py"), (unitBSpec, "b.py")] }

/-- A unit that completes normally with one record. -/
def goodUnitSpec : ArtifactSpec :=
  okSpec "Good" "Good Unit" [[("k", PyVal.str "v")]]

/-- A unit whose invocation raises. -/
def badUnitSpec : ArtifactSpec :=
  raisingSpec "Bad" "Bad Unit"

/-- A two-unit catalog: one unit completes normally, the other raises. -/
def msGoodBad : MisterSkinnylegs :=
  { profileData := emptyProfile
    catalog := [(goodUnitSpec, "g.py"), (badUnitSpec, "b.py")] }

/-- A startup environment whose plugin scan finds two descriptors with
the same name (valid profile, fresh output folder). -/
def envDup : StartupEnv :=
  { profileIsDir := true
    outputExists := false
    plugins := [(okSpec "SvcA" "Dup Name" [], "a.py"),
                (okSpec "SvcB" "Dup Name" [], "b.py")]
    profileData := emptyProfile }

/-- A startup environment with one normally-completing unit producing a
non-empty result. -/
def envOk : StartupEnv :=
  { profileIsDir := true
    outputExists := false
    plugins := [(unitASpec, "a.py")]
    profileData := emptyProfile }

/-- A startup environment whose profile path is not a directory. -/
def envNoProfile : StartupEnv :=
  { profileIsDir := false
    outputExists := false
    plugins := []
    profileData := emptyProfile }

/-- The envelope `_run_artifact` builds for a unit whose invocation
completes (junk `result` on the raise path, where it is never used). -/
def envelopeOf (ms : MisterSkinnylegs) (spec : ArtifactSpec) : ResultEnvelope :=
  { artifact_service := spec.service
    artifact_name := spec.name
    artifact_version := spec.version
    artifact_description := spec.description
    result :=
      match runArtifactCall ms spec with
      | Except.ok r => r.result
      | Except.error _ => [] }

/-! ## Helper lemmas -/

theorem runArtifactEnvelope_eq_ok (ms : MisterSkinnylegs) (spec : ArtifactSpec)
    (h : (runArtifactCall ms spec).isOk = true) :
    runArtifactEnvelope ms spec = Except.ok (spec, envelopeOf ms spec) := by
  unfold runArtifactEnvelope envelopeOf
  cases hc : runArtifactCall ms spec with
  | ok r => simp [hc]
  | error e => rw [hc] at h; simp [Except.isOk, Except.toBool] at h

theorem runAllLoop_of_ok (ms : MisterSkinnylegs) :
    ∀ order : List Nat,
      (∀ i ∈ order, ∃ spec, ms.specs[i]? = some spec ∧ (runArtifactCall ms spec).isOk = true) →
      runAllLoop ms order =
        (order.filterMap (fun i => ms.specs[i]?.map (fun s => (s, envelopeOf ms s))),
         Option.none)
  | [], _ => rfl
  | i :: rest, h => by
    obtain ⟨spec, hget, hok⟩ := h i (List.mem_cons_self i rest)
    have hrec := runAllLoop_of_ok ms rest (fun j hj => h j (List.mem_cons_of_mem _ hj))
    simp only [runAllLoop, hget, runArtifactEnvelope_eq_ok ms spec hok, hrec,
      List.filterMap_cons, Option.map_some']

theorem range_filterMap_getElem {α β : Type} (g : α → β) :
    ∀ l : List α, (List.range l.length).filterMap (fun i => l[i]?.map g) = l.map g
  | [] => by simp
  | a :: tl => by
    rw [List.length_cons, List.range_succ_eq_map, List.filterMap_cons]
    simp only [List.getElem?_cons_zero, Option.map_some']
    rw [List.filterMap_map]
    have hfun : ((fun i => (a :: tl)[i]?.map g) ∘ Nat.succ) = fun i => tl[i]?.map g := by
      funext i
      simp [List.getElem?_cons_succ]
    rw [hfun, range_filterMap_getElem g tl, List.map_cons]

theorem count_invocationEvents_opened (ms : MisterSkinnylegs) (i j : Nat) :
    (invocationEvents ms j).count (ProfileEvent.opened i) =
      if j < ms.specs.length ∧ i = j then 1 else 0 := by
  unfold invocationEvents
  cases hj : ms.specs[j]? with
  | none =>
    have hge : ¬ j < ms.specs.length := by
      simpa using List.getElem?_eq_none_iff.mp hj
    simp [hge]
  | some spec =>
    have hlt : j < ms.specs.length := by
      rcases List.getElem?_eq_some_iff.mp hj with ⟨h, _⟩
      exact h
    by_cases hij : i = j
    · subst hij
      simp [runArtifact, pyWithProfile, List.count_cons, hlt]
    · simp [runArtifact, pyWithProfile, List.count_cons, hlt, hij, Ne.symm hij]

theorem count_invocationEvents_closed (ms : MisterSkinnylegs) (i j : Nat) :
    (invocationEvents ms j).count (ProfileEvent.closed i) =
      if j < ms.specs.length ∧ i = j then 1 else 0 := by
  unfold invocationEvents
  cases hj : ms.specs[j]? with
  | none =>
    have hge : ¬ j < ms.specs.length := by
      simpa using List.getElem?_eq_none_iff.mp hj
    simp [hge]
  | some spec =>
    have hlt : j < ms.specs.length := by
      rcases List.getElem?_eq_some_iff.mp hj with ⟨h, _⟩
      exact h
    by_cases hij : i = j
    · subst hij
      simp [runArtifact, pyWithProfile, List.count_cons, hlt]
    · simp [runArtifact, pyWithProfile, List.count_cons, hlt, hij, Ne.symm hij]

theorem sum_indicator_count (len i : Nat) :
    ∀ order : List Nat,
      (order.map (fun j => if j < len ∧ i = j then 1 else 0)).sum =
        if i < len then order.count i else 0
  | [] => by simp
  | j :: rest => by
    rw [List.map_cons, List.sum_cons, sum_indicator_count len i rest, List.count_cons]
    by_cases hij : i = j
    · subst hij
      by_cases hlt : i < len
      · simp [hlt]
        omega
      · simp [hlt]
    · simp [hij, Ne.symm hij]

theorem count_runAllEvents_opened (ms : MisterSkinnylegs) (order : List Nat) (i : Nat) :
    (runAllEvents ms order).count (ProfileEvent.opened i) =
      if i < ms.specs.length then order.count i else 0 := by
  unfold runAllEvents
  rw [List.count_flatten, List.map_map]
  have hfun : (List.count (ProfileEvent.opened i) ∘ invocationEvents ms) =
      fun j => if j < ms.specs.length ∧ i = j then 1 else 0 := by
    funext j
    exact count_invocationEvents_opened ms i j
  rw [hfun, sum_indicator_count]

theorem count_runAllEvents_closed (ms : MisterSkinnylegs) (order : List Nat) (i : Nat) :
    (runAllEvents ms order).count (ProfileEvent.closed i) =
      if i < ms.specs.length then order.count i else 0 := by
  unfold runAllEvents
  rw [List.count_flatten, List.map_map]
  have hfun : (List.count (ProfileEvent.closed i) ∘ invocationEvents ms) =
      fun j => if j < ms.specs.length ∧ i = j then 1 else 0 := by
    funext j
    exact count_invocationEvents_closed ms i j
  rw [hfun, sum_indicator_count]

theorem handleResult_openMode (spec : ArtifactSpec) (r : ResultEnvelope) :
    ∀ e ∈ handleResult spec r, ∀ m, e.openMode = some m → m = reportOpenMode := by
  intro e he m hm
  by_cases hres : r.result.isEmpty
  · simp [handleResult, hres] at he
    rcases he with rfl | rfl <;> simp [Effect.openMode] at hm
  · simp [handleResult, hres] at he
    rcases he with rfl | rfl | rfl | rfl <;> simp [Effect.openMode] at hm
    exact hm.symm

theorem startupLogs_openMode (catalog : List (ArtifactSpec × String)) :
    ∀ e ∈ startupLogs catalog, e.openMode = Option.none := by
  intro e he
  obtain ⟨s, _, heq⟩ := List.mem_map.mp he
  rw [← heq]
  rfl

theorem sorted_sortByTimeKey (key : String) (l : List PyDict) :
    List.Sorted (fun a b => timeKey key a ≤ timeKey key b) (sortByTimeKey key l) := by
  have h : List.Pairwise
      (fun a b => (decide (timeKey key a ≤ timeKey key b)) = true)
      (l.mergeSort (fun a b => decide (timeKey key a ≤ timeKey key b))) :=
    List.sorted_mergeSort
      (by intro a b c h1 h2; simp at h1 h2 ⊢; omega)
      (by intro a b; simp; omega) l
  exact h.imp (fun hab => of_decide_eq_true hab)

theorem exceptMap_eq_ok {α β : Type} (g : α → β) (x : Except PyError α) (b : β)
    (h : Except.map g x = Except.ok b) : ∃ a, x = Except.ok a ∧ b = g a := by
  cases x with
  | ok a =>
    refine ⟨a, rfl, ?_⟩
    simpa [Except.map] using h.symm
  | error e => simp [Except.map] at h

/-! ## The claims -/

/-- **C1.** The claim states that each invocation passes the three
arguments `(profileHandle, logSink, storageHandle)` to the unit's
extraction function.  The code does not: `_run_artifact` (line 47)
calls `spec.function(profile, self._log_callback)` with two arguments
and constructs no storage handle, while every registered plugin
function declares the three positional parameters
`(profile, log_func, storage)` — so, for every entry of the real
catalog and any profile data, the invocation raises `TypeError` before
the extraction body runs. -/
theorem c1_two_argument_call_raises_typeError (ms : MisterSkinnylegs) :
    repoCatalog.map (fun e => runArtifactCall ms e.1) =
      List.replicate 5 (Except.error PyError.typeError) := rfl

/-- **C1 witness:** the evidence theorem evaluated on the shipped
catalog over an empty profile. -/
theorem c1_witness :
    repoCatalog.map (fun e => runArtifactCall msEmpty e.1) =
      List.replicate 5 (Except.error PyError.typeError) :=
  c1_two_argument_call_raises_typeError msEmpty

/-- **C2 counterexample:** on the real catalog (five entries), whose
invocations all raise `TypeError` (see C1), `run_all` yields zero
envelopes before the exception propagates — not one envelope per
catalog entry. -/
theorem c2_counterexample :
    (runAllLoop msEmpty [0, 1, 2, 3, 4]).1.length ≠ msEmpty.specs.length ∧
    (runAllLoop msEmpty [0, 1, 2, 3, 4]).2 = some PyError.typeError := by
  constructor
  · decide
  · rfl

/-- **C2 (amended).** For every catalog all of whose invocations
complete normally, and every completion order (a permutation of the
catalog indices), `run_all` raises nothing, yields the envelopes in
completion order, and yields exactly one envelope per catalog entry —
a bijection between catalog entries and emitted envelopes. -/
theorem c2_bijection_when_all_complete (ms : MisterSkinnylegs) (order : List Nat)
    (hperm : order.Perm (List.range ms.specs.length))
    (hok : ∀ spec ∈ ms.specs, (runArtifactCall ms spec).isOk = true) :
    (runAllLoop ms order).2 = Option.none ∧
    (runAllLoop ms order).1 =
      order.filterMap (fun i => ms.specs[i]?.map (fun s => (s, envelopeOf ms s))) ∧
    (runAllLoop ms order).1.Perm (ms.specs.map (fun s => (s, envelopeOf ms s))) := by
  have hvalid : ∀ i ∈ order,
      ∃ spec, ms.specs[i]? = some spec ∧ (runArtifactCall ms spec).isOk = true := by
    intro i hi
    have hilt : i < ms.specs.length := by
      have hmem : i ∈ List.range ms.specs.length := hperm.mem_iff.mp hi
      simpa using hmem
    exact ⟨ms.specs[i], List.getElem?_eq_getElem hilt, hok _ (List.getElem_mem hilt)⟩
  have heq := runAllLoop_of_ok ms order hvalid
  have h2 : ((List.range ms.specs.length).filterMap
      (fun i => ms.specs[i]?.map (fun s => (s, envelopeOf ms s)))).Perm
      (ms.specs.map (fun s => (s, envelopeOf ms s))) := by
    rw [range_filterMap_getElem]
  exact ⟨by rw [heq], by rw [heq],
    by rw [heq]; exact (hperm.filterMap _).trans h2⟩

/-- **C2 witness:** the amended claim instantiated on a two-unit
catalog whose invocations complete, consumed in the completion order
`[1, 0]`. -/
theorem c2_witness :
    ([1, 0] : List Nat).Perm (List.range msOk.specs.length) ∧
    (runAllLoop msOk [1, 0]).2 = Option.none ∧
    (runAllLoop msOk [1, 0]).1.Perm (msOk.specs.map (fun s => (s, envelopeOf msOk s))) := by
  have hperm : ([1, 0] : List Nat).Perm (List.range msOk.specs.length) := by decide
  have hok : ∀ spec ∈ msOk.specs, (runArtifactCall msOk spec).isOk = true := by decide
  obtain ⟨h1, _, h3⟩ := c2_bijection_when_all_complete msOk [1, 0] hperm hok
  exact ⟨hperm, h1, h3⟩

/-- **C3.** When the invocation that completes first raises, the
exception propagates through `run_all`'s `yield await coro`, so the
consumer's iteration terminates with zero envelopes — the normally
completing unit in the same catalog never gets its envelope yielded.
(The claim, and spec §5/§9, say one unit's failure must not terminate
the orchestration of the others.) -/
theorem c3_one_failure_terminates_run_all :
    runAllLoop msGoodBad [1, 0] = ([], some (PyError.exception "boom")) ∧
    (runArtifactCall msGoodBad goodUnitSpec).isOk = true :=
  ⟨rfl, rfl⟩

/-- **C4.** `run_one` (source lines 60–63) never awaits
`self._run_artifact(spec)`: for a name present in the catalog it
returns the pair `(spec, <coroutine object>)` — an unfinished
computation, not a ResultEnvelope — while for an absent name the
catalog lookup fails with `UnknownArtifact`. -/
theorem c4_run_one_returns_unawaited_coroutine :
    (match run_one msEmpty "ChatGPT Chat Information" with
     | Except.ok (spec, r) => spec.name = "ChatGPT Chat Information" ∧ r.isCoroutine = true
     | Except.error _ => False) ∧
    (match run_one msEmpty "No Such Artifact" with
     | Except.error PyError.unknownArtifact => True
     | _ => False) :=
  ⟨⟨rfl, rfl⟩, trivial⟩

/-- **C5 counterexample:** with a valid profile, a fresh output folder,
and a catalog containing a duplicate artifact name, `main` aborts with
the duplicate-name condition — but only after it has already created
the output directory (line 108) and the log file (line 109), because
the catalog is built (line 112) after those side effects.  The claim
says all three startup checks abort before any side effect. -/
theorem c5_counterexample :
    (mainRun envDup []).2 = some PyError.duplicateArtifactName ∧
    Effect.mkdirOutputRoot ∈ (mainRun envDup []).1 ∧
    Effect.openLogFile simpleLogOpenMode ∈ (mainRun envDup []).1 :=
  ⟨rfl, List.Mem.head _, List.Mem.tail _ (List.Mem.head _)⟩

/-- **C5 (amended).** An invalid profile path or a pre-existing output
folder aborts `main` before any side effect; a duplicate artifact name
detected at catalog load aborts before any report output (no service
directory, no report file) but after the output directory and the log
file have been created. -/
theorem c5_startup_effect_order (env : StartupEnv) (order : List Nat) :
    (env.profileIsDir = false → mainRun env order = ([], some PyError.notADirectoryError)) ∧
    (env.profileIsDir = true → env.outputExists = true →
      mainRun env order = ([], some PyError.fileExistsError)) ∧
    (env.profileIsDir = true → env.outputExists = false →
      hasDuplicateNames (env.plugins.map (fun e => e.1.name)) = true →
      mainRun env order =
        ([Effect.mkdirOutputRoot, Effect.openLogFile simpleLogOpenMode],
         some PyError.duplicateArtifactName)) := by
  refine ⟨?_, ?_, ?_⟩
  · intro h
    simp [mainRun, h]
  · intro h1 h2
    simp [mainRun, h1, h2]
  · intro h1 h2 h3
    simp [mainRun, h1, h2, loadCatalog, h3]

/-- **C5 witness:** the amended claim instantiated on a bad profile
path and on a duplicate-name catalog. -/
theorem c5_witness :
    mainRun envNoProfile [] = ([], some PyError.notADirectoryError) ∧
    mainRun envDup [] =
      ([Effect.mkdirOutputRoot, Effect.openLogFile simpleLogOpenMode],
       some PyError.duplicateArtifactName) :=
  ⟨(c5_startup_effect_order envNoProfile []).1 rfl,
   (c5_startup_effect_order envDup []).2.2 rfl rfl rfl⟩

/-- **C6.** For every unit whose invocation completes, the produced
envelope carries exactly the descriptor's `service`, `name`, `version`
and `description`, and its `result` field is exactly the sequence of
records of the `ArtifactResult` the extraction call returned
(`_run_artifact`, lines 48–53). -/
theorem c6_envelope_matches_descriptor (ms : MisterSkinnylegs) (spec : ArtifactSpec)
    (r : ArtifactResult) (h : runArtifactCall ms spec = Except.ok r) :
    runArtifactEnvelope ms spec =
      Except.ok (spec,
        { artifact_service := spec.service
          artifact_name := spec.name
          artifact_version := spec.version
          artifact_description := spec.description
          result := r.result }) := by
  unfold runArtifactEnvelope
  rw [h]

/-- **C6 witness:** the envelope of a completing unit, computed. -/
theorem c6_witness :
    runArtifactEnvelope msOk unitASpec =
      Except.ok (unitASpec,
        { artifact_service := "SvcA"
          artifact_name := "UnitA"
          artifact_version := "1"
          artifact_description := "test unit"
          result := [[("k", PyVal.str "v")]] }) :=
  c6_envelope_matches_descriptor msOk unitASpec { result := [[("k", PyVal.str "v")]] } rfl

/-- **C7.** For every consumed `(spec, result)` pair: an empty
`result["result"]` produces no file output and logs the skip message;
a non-empty one produces exactly one report file — opened (in
exclusive-create mode) and written — named after the sanitized
artifact name inside the sanitized service directory, which is
created alongside it (`main`, lines 126–139). -/
theorem c7_empty_skip_nonempty_single_file (spec : ArtifactSpec) (r : ResultEnvelope) :
    (r.result = [] →
      (handleResult spec r).filter Effect.isFileOutput = [] ∧
      Effect.logLine (spec.name ++ " had not results, skipping") ∈ handleResult spec r) ∧
    (r.result ≠ [] →
      (handleResult spec r).filter Effect.isFileOutput =
        [Effect.openReportFile (sanitize_filename spec.service)
          (sanitize_filename spec.name ++ ".json") reportOpenMode,
         Effect.writeReport (sanitize_filename spec.service)
          (sanitize_filename spec.name ++ ".json") r] ∧
      Effect.mkdirServiceDir (sanitize_filename spec.service) ∈ handleResult spec r) := by
  constructor
  · intro h
    have hE : r.result.isEmpty = true := by simp [h]
    constructor
    · simp [handleResult, hE, Effect.isFileOutput]
    · simp [handleResult, hE]
  · intro h
    have hE : r.result.isEmpty = false := by
      cases hres : r.result with
      | nil => exact absurd hres h
      | cons a l => simp [hres]
    constructor
    · simp [handleResult, hE, Effect.isFileOutput]
    · simp [handleResult, hE]

/-- The envelope a completing unit with no records produces. -/
def envelopeEmptyW : ResultEnvelope :=
  { artifact_service := "SvcB"
    artifact_name := "UnitB"
    artifact_version := "1"
    artifact_description := "test unit"
    result := [] }

/-- The envelope a completing unit with one record produces. -/
def envelopeFullW : ResultEnvelope :=
  { artifact_service := "SvcA"
    artifact_name := "UnitA"
    artifact_version := "1"
    artifact_description := "test unit"
    result := [[("k", PyVal.str "v")]] }

/-- **C7 witness:** the policy applied to a concrete empty result and a
concrete non-empty result. -/
theorem c7_witness :
    (handleResult unitBSpec envelopeEmptyW).filter Effect.isFileOutput = [] ∧
    (handleResult unitASpec envelopeFullW).filter Effect.isFileOutput =
      [Effect.openReportFile (sanitize_filename "SvcA")
        (sanitize_filename "UnitA" ++ ".json") reportOpenMode,
       Effect.writeReport (sanitize_filename "SvcA")
        (sanitize_filename "UnitA" ++ ".json") envelopeFullW] :=
  ⟨((c7_empty_skip_nonempty_single_file unitBSpec envelopeEmptyW).1 rfl).1,
   ((c7_empty_skip_nonempty_single_file unitASpec envelopeFullW).2
      (List.cons_ne_nil _ _)).1⟩

/-- **C8.** Over any completion order that schedules each catalog index
at most once, every invocation's profile handle is opened exactly once
and closed exactly once — the `with` block releases it on both the
return and the raise path, and no handle is shared between two
invocations. -/
theorem c8_profile_handle_opened_closed_once (ms : MisterSkinnylegs) (order : List Nat)
    (hnd : order.Nodup) (i : Nat) (hi : i ∈ order) (hlt : i < ms.specs.length) :
    (runAllEvents ms order).count (ProfileEvent.opened i) = 1 ∧
    (runAllEvents ms order).count (ProfileEvent.closed i) = 1 := by
  have hc : order.count i = 1 := List.count_eq_one_of_mem hnd hi
  constructor
  · rw [count_runAllEvents_opened, if_pos hlt, hc]
  · rw [count_runAllEvents_closed, if_pos hlt, hc]

/-- **C8 witness:** on the real catalog — whose invocations all raise
`TypeError` — the third invocation's handle is still opened and closed
exactly once. -/
theorem c8_witness :
    (runAllEvents msEmpty [0, 1, 2, 3, 4]).count (ProfileEvent.opened 2) = 1 ∧
    (runAllEvents msEmpty [0, 1, 2, 3, 4]).count (ProfileEvent.closed 2) = 1 :=
  c8_profile_handle_opened_closed_once msEmpty [0, 1, 2, 3, 4]
    (by decide) 2 (by decide) (by decide)

/-- **C9.** Every file the process opens for writing — the log file in
`SimpleLog.__init__` and every per-artifact report file in `main` — is
opened with mode `"xt"` (exclusive create), and `open` in that mode
fails with `FileExistsError` on a pre-existing target and can never
truncate an existing file, so the process never overwrites a
pre-existing file. -/
theorem c9_exclusive_create_open_modes :
    (∀ (env : StartupEnv) (order : List Nat), ∀ e ∈ (mainRun env order).1,
      ∀ m, e.openMode = some m → m = "xt") ∧
    pyOpen "xt" true = Except.error PyError.fileExistsError ∧
    (∀ b : Bool, pyOpen "xt" b ≠ Except.ok OpenOutcome.truncatedExisting) := by
  have hx : ("xt".toList.contains 'x') = true := by decide
  refine ⟨?_, by simp [pyOpen, hx], ?_⟩
  · intro env order e he m hm
    unfold mainRun at he
    split at he
    · simp at he
    · split at he
      · simp at he
      · split at he
        · simp at he
          rcases he with rfl | rfl
          · simp [Effect.openMode] at hm
          · simp [Effect.openMode, simpleLogOpenMode] at hm
            exact hm.symm
        · rcases List.mem_append.mp he with h12 | h3
          · rcases List.mem_append.mp h12 with h1 | h2
            · simp at h1
              rcases h1 with rfl | rfl
              · simp [Effect.openMode] at hm
              · simp [Effect.openMode, simpleLogOpenMode] at hm
                exact hm.symm
            · rw [startupLogs_openMode _ e h2] at hm
              simp at hm
          · obtain ⟨l, hl, hel⟩ := List.mem_flatten.mp h3
            obtain ⟨pr, _, rfl⟩ := List.mem_map.mp hl
            exact handleResult_openMode pr.1 pr.2 e hel m hm
  · intro b
    cases b <;> simp [pyOpen, hx]

/-- **C9 witness:** a concrete run containing the log-file open effect,
whose mode the theorem forces to `"xt"`; exclusive-create open on an
existing target fails. -/
theorem c9_witness :
    Effect.openLogFile simpleLogOpenMode ∈ (mainRun envOk [0]).1 ∧
    simpleLogOpenMode = "xt" ∧
    pyOpen "xt" true = Except.error PyError.fileExistsError := by
  have hmem : Effect.openLogFile simpleLogOpenMode ∈ (mainRun envOk [0]).1 :=
    List.Mem.tail _ (List.Mem.head _)
  exact ⟨hmem,
    c9_exclusive_create_open_modes.1 envOk [0] _ hmem simpleLogOpenMode rfl,
    c9_exclusive_create_open_modes.2.1⟩

/-- **C10.** Each of the three Google Drive extraction functions
returns its records sorted ascending by its time key: `"timestamp"`
for `folders_and_files` and `timeline_usage`, `"cache request time"`
for `thumbnails` (whenever the function returns at all). -/
theorem c10_gdrive_results_sorted (profile : Profile) (storage : ArtifactStorage) :
    List.Sorted (fun a b => timeKey "timestamp" a ≤ timeKey "timestamp" b)
      (folders_and_files profile).result ∧
    (∀ r, thumbnails profile storage = Except.ok r →
      List.Sorted
        (fun a b => timeKey "cache request time" a ≤ timeKey "cache request time" b)
        r.result) ∧
    (∀ r, timeline_usage profile = Except.ok r →
      List.Sorted (fun a b => timeKey "timestamp" a ≤ timeKey "timestamp" b) r.result) := by
  refine ⟨?_, ?_, ?_⟩
  · exact sorted_sortByTimeKey _ _
  · intro r hr
    unfold thumbnails at hr
    obtain ⟨l, _, rfl⟩ := exceptMap_eq_ok _ _ _ hr
    exact sorted_sortByTimeKey _ _
  · intro r hr
    unfold timeline_usage at hr
    obtain ⟨l, _, rfl⟩ := exceptMap_eq_ok _ _ _ hr
    exact sorted_sortByTimeKey _ _

/-- A profile exercising all three Google Drive extraction functions:
three matching history records with out-of-order visit times, two
matching thumbnail cache records with out-of-order request times, and
one session-storage usage record. -/
def profW : Profile :=
  { historyRecords :=
      [{ rec_id := 1, url := "https://drive.google.com/drive/folders/abc",
         title := "My Drive - Google Drive", visit_time := 500, record_location := "h1" },
       { rec_id := 2, url := "https://drive.google.com/file/d/xyz",
         title := "shot.png - Google Drive", visit_time := 100, record_location := "h2" },
       { rec_id := 3, url := "https://docs.google.com/spreadsheets/d/q",
         title := "Untitled spreadsheet - Google Sheets", visit_time := 300,
         record_location := "h3" },
       { rec_id := 4, url := "https://example.com/", title := "x", visit_time := 1,
         record_location := "h4" }],
    cacheRecords :=
      [{ keyUrl := "https://lh3.googleusercontent.com/fife/thing=w200-h100\u0000",
         data := [1, 2], dataJson := Option.none,
         contentDisposition := ["attachment; filename=\"pic.png\""],
         requestTime := 900, responseTime := 901, dataLocation := "c1" },
       { keyUrl := "https://lh3.googleusercontent.com/fife/other=w300-h150",
         data := [3], dataJson := Option.none,
         contentDisposition := ["attachment; filename=\"a.jpg\""],
         requestTime := 200, responseTime := 201, dataLocation := "c2" }],
    sessionRecords :=
      [{ origin := "https://drive.google.com/", key := "ui:tabFirstStartTimeMsec",
         value := "1700000000000", leveldb_sequence_number := 9 }] }

/-- The storage namespace of the thumbnails unit. -/
def stW : ArtifactStorage :=
  { service := "Google Drive", name := "Google Drive Thumbnails" }

/-- The result `thumbnails` computes on `profW` (records sorted by
cache request time). -/
def thumbResultW : ArtifactResult :=
  { result :=
      [[("url", PyVal.str "https://lh3.googleusercontent.com/fife/other=w300-h150"),
        ("cache request time", PyVal.time 200),
        ("cache response time", PyVal.time 201),
        ("extracted file reference",
          PyVal.str "Google Drive/Google Drive Thumbnails/1_a.jpg")],
       [("url", PyVal.str "https://lh3.googleusercontent.com/fife/thing=w200-h100"),
        ("cache request time", PyVal.time 900),
        ("cache response time", PyVal.time 901),
        ("extracted file reference",
          PyVal.str "Google Drive/Google Drive Thumbnails/0_pic.png")]] }

/-- The result `timeline_usage` computes on `profW`. -/
def usageResultW : ArtifactResult :=
  { result :=
      [[("source", PyVal.str "Session Storage"),
        ("id", PyVal.int 9),
        ("type", PyVal.str "Tab first start"),
        ("timestamp", PyVal.time 1700000000000)]] }

unseal List.merge List.mergeSort in
/-- **C10 witness:** the sortedness theorem applied to `profW`, with
the thumbnail and usage results evaluated to explicit values. -/
theorem c10_witness :
    List.Sorted (fun a b => timeKey "timestamp" a ≤ timeKey "timestamp" b)
      (folders_and_files profW).result ∧
    thumbnails profW stW = Except.ok thumbResultW ∧
    List.Sorted
      (fun a b => timeKey "cache request time" a ≤ timeKey "cache request time" b)
      thumbResultW.result ∧
    timeline_usage profW = Except.ok usageResultW ∧
    List.Sorted (fun a b => timeKey "timestamp" a ≤ timeKey "timestamp" b)
      usageResultW.result := by
  obtain ⟨h1, h2, h3⟩ := c10_gdrive_results_sorted profW stW
  have ht : thumbnails profW stW = Except.ok thumbResultW := rfl
  have hu : timeline_usage profW = Except.ok usageResultW := rfl
  exact ⟨h1, ht, h2 _ ht, hu, h3 _ hu⟩
